import Mathlib

/-!
Verification development for the TalkTuah gateway.

Shallow embedding of the gateway's core components and proofs about them:

* `api/lib/downloads.py` — the download service (`DownloadService`):
  per-model download state map and the background download task's
  checkpoint updates.
* `api/utils/http_client.py` — `request_with_retry`, the retrying
  request executor over pooled and fresh transport handles.
* `api/utils/streaming.py` — `stream_chat_response`, the SSE relay.
* `api/lib/models.py` — `ModelService.switch_model` and
  `verify_model_exists`, plus the `/api/switch-model` route handler
  from `api/routers/models.py`.
* `api/lib/vllm.py` — `VLLMService.get_loading_status`.

Effects (task spawning, transport handle lifecycle, sleeps, upstream
closes, container controller calls) are made explicit as event lists or
state fields so that the specified resource and ordering properties can
be stated and proved.
-/

namespace TalkTuah

/-! ## Download service (`api/lib/downloads.py`) -/

/-- One entry of `DownloadService._download_state`: the Python dict
`{"status", "progress", "model", "started_at", "error"}` (the idle
placeholder returned by `get_progress` carries only the first three
keys; the missing ones are modeled as `0` and `none`). -/
structure DownloadState where
  status : String
  progress : Nat
  model : Option String
  startedAt : Nat
  error : Option String
deriving DecidableEq, Repr

/-- State of the `DownloadService` singleton: the `_download_state`
dict (an association list keyed by model id) together with the
background download tasks spawned via `asyncio.create_task`, each
recorded by the model id it downloads. -/
structure ServiceState where
  states : List (String × DownloadState)
  tasks : List String
deriving DecidableEq, Repr

def ServiceState.init : ServiceState := ⟨[], []⟩

/-- Dict assignment `self._download_state[model_id] = v`: replace
the entry for the key or appending it if absent. -/
def setKey (l : List (String × DownloadState)) (k : String) (v : DownloadState) :
    List (String × DownloadState) :=
  match l with
  | [] => [(k, v)]
  | (k', v') :: rest => if k' = k then (k, v) :: rest else (k', v') :: setKey rest k v

/-- Dict lookup `self._download_state.get(model_id)`. -/
def getKey (l : List (String × DownloadState)) (k : String) : Option DownloadState :=
  match l with
  | [] => none
  | (k', v') :: rest => if k' = k then some v' else getKey rest k

/-- Number of entries stored under a key (a Python dict always has at
most one; the association list makes that a provable fact). -/
def countKey (l : List (String × DownloadState)) (k : String) : Nat :=
  l.countP (fun p => p.1 == k)

/-- The state `download_model` writes before spawning the task:
`{"status": "downloading", "progress": 0, "model": model_id,
"started_at": now, "error": None}`. -/
def freshDownloadState (modelId : String) (now : Nat) : DownloadState :=
  { status := "downloading", progress := 0, model := some modelId,
    startedAt := now, error := none }

/-- The method `DownloadService.download_model` (the path through the `try`, with
`snapshot_download` available): unconditionally (re)initialize
`_download_state[model_id]`, spawn
`asyncio.create_task(self._download_in_background(model_id))`, and
return the ack dict (modeled by its `status` and `model_id` fields). -/
def download_model (s : ServiceState) (modelId : String) (now : Nat) :
    ServiceState × (String × String) :=
  ({ states := setKey s.states modelId (freshDownloadState modelId now),
     tasks := s.tasks ++ [modelId] },
   ("downloading", modelId))

/-- The checkpoint updates `_download_in_background` and
`_download_sync` apply in order to `_download_state[model_id]` during a
successful download: progress 10 with status re-set to `downloading`,
progress 25, progress 90, then progress 100 with status `complete`. -/
def lifetimeUpdates : List (DownloadState → DownloadState) :=
  [ fun d => { d with progress := 10, status := "downloading" },
    fun d => { d with progress := 25 },
    fun d => { d with progress := 90 },
    fun d => { d with progress := 100, status := "complete" } ]

/-- The write the `except` branches of `_download_in_background`
perform when the fetcher raises: status `error`, message recorded,
progress left at its last value. -/
def errorUpdate (msg : String) (d : DownloadState) : DownloadState :=
  { d with status := "error", error := some msg }

/-- The placeholder `get_progress` returns when nothing has ever been
tracked: `{"status": "idle", "progress": 0, "model": None}`. -/
def idlePlaceholder : DownloadState :=
  { status := "idle", progress := 0, model := none,
    startedAt := 0, error := none }

/-- States observable through `get_progress` while a list of updates is
applied one by one, ending with the error write when the download fails
(`failMsg = some msg`) or cleanly when it succeeds (`failMsg = none`). -/
def traceFrom (d : DownloadState) :
    List (DownloadState → DownloadState) → Option String → List DownloadState
  | [], none => [d]
  | [], some msg => [d, errorUpdate msg d]
  | f :: fs, o => d :: traceFrom (f d) fs o

/-- Full observable state trace of one download lifetime for a model
id: the idle placeholder seen before the entry exists, the fresh
`downloading` state written by `download_model`, then the background
task's checkpoint states.  A failing fetcher run performs only the
first `k` checkpoint updates before the error write. -/
def downloadTrace (modelId : String) (now : Nat) (k : Nat)
    (failMsg : Option String) : List DownloadState :=
  idlePlaceholder ::
    traceFrom (freshDownloadState modelId now)
      (match failMsg with
       | none => lifetimeUpdates
       | some _ => lifetimeUpdates.take k)
      failMsg

/-- Status transitions allowed between two consecutive observed states:
unchanged, `idle → downloading`, or `downloading → complete/error`. -/
def statusStepOk (a b : String) : Prop :=
  a = b ∨ (a = "idle" ∧ b = "downloading") ∨
    (a = "downloading" ∧ (b = "complete" ∨ b = "error"))

/-- A legal step of the download state machine: progress does not
decrease and the status moves only forward. -/
def validStep (a b : DownloadState) : Prop :=
  a.progress ≤ b.progress ∧ statusStepOk a.status b.status

/-- Python `max(items, key=lambda x: x[1]["started_at"])` over the dict
items: the first entry with maximal `started_at` (later entries replace
the champion only when strictly greater). -/
def mostRecent (hd : String × DownloadState) (tl : List (String × DownloadState)) :
    String × DownloadState :=
  tl.foldl (fun acc x => if acc.2.startedAt < x.2.startedAt then x else acc) hd

/-- The method `DownloadService.get_progress`: the named model's entry when
present, otherwise the most recently started entry, otherwise the idle
placeholder. -/
def get_progress (s : ServiceState) (modelId : Option String) : DownloadState :=
  match modelId with
  | some m =>
      match getKey s.states m with
      | some st => st
      | none =>
          match s.states with
          | [] => idlePlaceholder
          | hd :: tl => (mostRecent hd tl).2
  | none =>
      match s.states with
      | [] => idlePlaceholder
      | hd :: tl => (mostRecent hd tl).2

/-! ## Retrying request executor (`api/utils/http_client.py`) -/

/-- The transport-level failure classes `request_with_retry` catches:
`httpx.ConnectError`, `httpx.RemoteProtocolError`,
`httpx.TimeoutException`. -/
inductive TransportError where
  | connectError (msg : String)
  | remoteProtocolError (msg : String)
  | timeoutException (msg : String)
deriving DecidableEq, Repr

/-- An upstream HTTP response, as far as the embedded code inspects it:
its status code and the model ids listed under `"data"` in its JSON
body (used by `get_loading_status`; `request_with_retry` never looks
inside). -/
structure Response where
  statusCode : Nat
  modelIds : List String
deriving DecidableEq, Repr

/-- What one call on a transport handle produces: a response that was
actually received, a failure of one of the three transport classes the
`except` tuple catches, or any other exception raised by
`client.request` (e.g. `httpx.ReadError` or `httpx.WriteError`), which
that tuple does not catch. -/
inductive AttemptOutcome where
  | response (r : Response)
  | transportFailure (e : TransportError)
  | otherException (msg : String)
deriving DecidableEq, Repr

/-- True exactly for the caught transport failure classes — the
outcomes that drive a retry. -/
def AttemptOutcome.isFailure : AttemptOutcome → Bool
  | .transportFailure _ => true
  | _ => false

/-- True when the attempt's outcome is one the loop body deals with —
a received response or a caught transport failure; false for an
exception outside the caught classes, which propagates out of the
loop. -/
def AttemptOutcome.isHandled : AttemptOutcome → Bool
  | .otherException _ => false
  | _ => true

/-- Failure result of the whole executor: the re-raised last transport
error, an exception outside the caught classes propagating as-is, or
the defensive `Exception("Failed to connect after retries")` raised
when the loop body never ran. -/
inductive RetryFailure where
  | transport (e : TransportError)
  | uncaught (msg : String)
  | noAttempts
deriving DecidableEq, Repr

/-- Observable actions of `request_with_retry`, in order: sleeping
`retry_delay` seconds, picking the cached pooled client, creating a
fresh client for attempt `i`, issuing the request of attempt `i`, and
closing the fresh client of attempt `i`. -/
inductive Ev where
  | sleep (d : ℚ)
  | usePooled
  | openFresh (i : Nat)
  | request (i : Nat)
  | closeFresh (i : Nat)
deriving DecidableEq, Repr

/-- The loop of `request_with_retry`, driven by an oracle giving the
outcome each attempt would produce.  `remaining` is
`max_retries - attempt`; `last` is the `last_error` variable.  Attempt
0 uses the pooled client with no sleep; attempts ≥ 1 sleep
`retry_delay`, use a fresh client and close it on success and on
caught transport failure alike.  When the final attempt fails the last
error is re-raised; the fallthrough after the loop raises `last_error
or Exception(...)`.  There is no `finally`: an exception outside the
caught classes propagates out of the loop immediately, and the fresh
client of the attempt that raised it is never closed. -/
def runRetry (outcomes : Nat → AttemptOutcome) (retryDelay : ℚ) :
    Nat → Nat → Option TransportError → List Ev × Except RetryFailure Response
  | _, 0, last =>
      ([], .error (match last with
                   | some e => .transport e
                   | none => .noAttempts))
  | attempt, remaining + 1, _ =>
      let pre : List Ev :=
        if attempt = 0 then [Ev.usePooled, Ev.request attempt]
        else [Ev.sleep retryDelay, Ev.openFresh attempt, Ev.request attempt]
      let closing : List Ev := if attempt = 0 then [] else [Ev.closeFresh attempt]
      match outcomes attempt with
      | .response r => (pre ++ closing, .ok r)
      | .otherException m => (pre, .error (.uncaught m))
      | .transportFailure e =>
          if remaining = 0 then
            (pre ++ closing, .error (.transport e))
          else
            let next := runRetry outcomes retryDelay (attempt + 1) remaining (some e)
            (pre ++ closing ++ next.1, next.2)

/-- The executor `request_with_retry(method, url, max_retries, retry_delay)`:
the full event trace and final result. -/
def request_with_retry (outcomes : Nat → AttemptOutcome) (maxRetries : Nat)
    (retryDelay : ℚ) : List Ev × Except RetryFailure Response :=
  runRetry outcomes retryDelay 0 maxRetries none

/-- Number of attempts actually issued in a trace. -/
def nRequests (l : List Ev) : Nat :=
  l.countP (fun e => match e with | Ev.request _ => true | _ => false)

/-- Number of sleeps in a trace. -/
def nSleeps (l : List Ev) : Nat :=
  l.countP (fun e => match e with | Ev.sleep _ => true | _ => false)

/-- Total time spent sleeping in a trace. -/
def totalSleep (l : List Ev) : ℚ :=
  (l.map (fun e => match e with | Ev.sleep d => d | _ => 0)).sum

/-- Contribution of an event to the open fresh-handle count: +1 when a
fresh handle is opened, -1 when one is closed. -/
def handleDelta : Ev → ℤ
  | Ev.openFresh _ => 1
  | Ev.closeFresh _ => -1
  | _ => 0

/-- Net number of fresh handles still open after the events of a
trace. -/
def openHandles (l : List Ev) : ℤ :=
  (l.map handleDelta).sum

/-- The events attempt `i` always contributes to the trace: attempt 0
is the pooled-client request; every later attempt sleeps, opens a
fresh client, issues its request and closes the fresh client. -/
def attemptBlock (retryDelay : ℚ) (i : Nat) : List Ev :=
  if i = 0 then [Ev.usePooled, Ev.request 0]
  else [Ev.sleep retryDelay, Ev.openFresh i, Ev.request i, Ev.closeFresh i]

/-- The concatenation of the blocks of `n` consecutive attempts
starting at attempt number `attempt`. -/
def canonicalTrace (retryDelay : ℚ) : Nat → Nat → List Ev
  | 0, _ => []
  | n + 1, attempt => attemptBlock retryDelay attempt ++ canonicalTrace retryDelay n (attempt + 1)

/-- The events of an attempt whose call raises an exception outside
the caught classes: the request is issued (after the sleep and fresh
open for attempts ≥ 1) but, the loop having no `finally`, no close
follows — on attempts ≥ 1 the fresh client stays open. -/
def leakBlock (retryDelay : ℚ) (i : Nat) : List Ev :=
  if i = 0 then [Ev.usePooled, Ev.request 0]
  else [Ev.sleep retryDelay, Ev.openFresh i, Ev.request i]

/-! ## SSE stream relay (`api/utils/streaming.py`) -/

/-- Observable actions of the relay generator: yielding one chunk to
the downstream client, and closing the upstream response. -/
inductive SEv where
  | yield (chunk : String)
  | closeUpstream
deriving DecidableEq, Repr

/-- Python `json.dumps({"error": str(e), "type": "stream_error"})`. -/
def errorEventJson (msg : String) : String :=
  "\x7b\"error\": \"" ++ msg ++ "\", \"type\": \"stream_error\"\x7d"

/-- Python `line.strip()`: drop leading and trailing whitespace. -/
def pyStrip (s : String) : String :=
  ⟨((s.data.dropWhile Char.isWhitespace).reverse.dropWhile Char.isWhitespace).reverse⟩

/-- Python `line.startswith(marker)`. -/
def pyStartsWith (s marker : String) : Bool :=
  marker.data.isPrefixOf s.data

/-- The upstream response as the relay consumes it: the lines
`aiter_lines` yields, and whether after them the next read raises
(`some msg`) or the iterator ends cleanly (`none`). -/
structure Upstream where
  lines : List String
  readFailure : Option String
deriving DecidableEq, Repr

/-- The `try` body of `stream_chat_response` together with its
`except` clause: blank lines are skipped, `data: ` lines are forwarded
as `f"\x7bline\x7d\n\n"`, iteration breaks right after forwarding the
`data: [DONE]` sentinel, and an exception while reading is converted
into one synthetic error frame. -/
def relayBody : List String → Option String → List SEv
  | [], none => []
  | [], some msg => [SEv.yield ("data: " ++ errorEventJson msg ++ "\n\n")]
  | l :: rest, f =>
      if pyStrip l = "" then relayBody rest f
      else if pyStartsWith l "data: " then
        SEv.yield (l ++ "\n\n") ::
          (if pyStrip l = "data: [DONE]" then [] else relayBody rest f)
      else relayBody rest f

/-- The generator `stream_chat_response`: its full event sequence.
The `finally` closes the upstream response exactly once on every exit
path, after the `try` body or the `except` clause finishes. -/
def stream_chat_response (u : Upstream) : List SEv :=
  relayBody u.lines u.readFailure ++ [SEv.closeUpstream]

/-- A valid SSE data frame: a non-blank line carrying the `data: `
marker that is not the terminal sentinel. -/
def validDataFrame (l : String) : Prop :=
  pyStrip l ≠ "" ∧ pyStartsWith l "data: " = true ∧ pyStrip l ≠ "data: [DONE]"

/-- Number of times a relay trace closes the upstream response. -/
def nCloses (l : List SEv) : Nat :=
  l.countP (fun e => match e with | SEv.closeUpstream => true | _ => false)

/-! ## Model switching (`api/lib/models.py`, `api/routers/models.py`) -/

/-- Calls issued to the container controller (`DockerService`). -/
inductive DockerCall where
  | recreateVllm
  | restartApiDelayed (delaySeconds : Nat)
deriving DecidableEq, Repr

/-- State of `ModelService` as far as `switch_model` touches it: whether
`/workspace/.env` exists and its `DEFAULT_MODEL` value, plus the model
list cache and its timestamp. -/
structure ModelServiceState where
  envFileExists : Bool
  envDefaultModel : Option String
  modelCache : Option (List String)
  cacheTimestamp : Nat
deriving DecidableEq, Repr

/-- Python `"models--" + model_id.replace("/", "--")`. -/
def modelDirName (modelId : String) : String :=
  "models--" ++ (modelId.replace "/" "--")

/-- The method `ModelService.verify_model_exists`: does the model's cache
directory exist (`fs` is the filesystem's directory-existence
oracle)? -/
def verify_model_exists (fs : String → Bool) (modelId : String) : Bool :=
  fs (modelDirName modelId)

/-- The method `ModelService.update_env_file`: set `DEFAULT_MODEL` (replacing the
line or appending it), or log a warning and change nothing when the
`.env` file is missing. -/
def update_env_file (st : ModelServiceState) (modelId : String) : ModelServiceState :=
  if st.envFileExists then { st with envDefaultModel := some modelId } else st

/-- The method `ModelService.invalidate_cache`. -/
def invalidate_cache (st : ModelServiceState) : ModelServiceState :=
  { st with modelCache := none, cacheTimestamp := 0 }

/-- Errors escaping `switch_model`: the `ValueError` raised for a
missing model, or the exception the container controller's recreate
raised. -/
inductive SwitchError where
  | notFound (msg : String)
  | controller (msg : String)
deriving DecidableEq, Repr

/-- The ack dict `switch_model` returns, modeled by its `status`,
`model_id` and `estimated_time_seconds` fields. -/
structure SwitchAck where
  status : String
  modelId : String
  estimatedTimeSeconds : Nat
deriving DecidableEq, Repr

/-- The method `ModelService.switch_model`: verify the artifact exists, raising
the not-found `ValueError` with zero controller calls when it does
not; otherwise update `.env`, invalidate the model cache, recreate the
vLLM container (whose failure propagates), schedule the delayed API
restart (a fire-and-forget `asyncio.create_task` that does not raise)
and return the `"switching"` ack immediately.  `recreateOutcome` is
the container controller's behavior for `recreate_vllm_container`. -/
def switch_model (fs : String → Bool) (recreateOutcome : Except String Unit)
    (st : ModelServiceState) (modelId : String) :
    ModelServiceState × List DockerCall × Except SwitchError SwitchAck :=
  if verify_model_exists fs modelId then
    let st1 := invalidate_cache (update_env_file st modelId)
    match recreateOutcome with
    | .error e => (st1, [DockerCall.recreateVllm], .error (.controller e))
    | .ok _ =>
        (st1, [DockerCall.recreateVllm, DockerCall.restartApiDelayed 1],
         .ok { status := "switching", modelId := modelId, estimatedTimeSeconds := 60 })
  else
    (st, [], .error (.notFound ("Model not found: " ++ modelId ++ ". Please download it first.")))

/-- The `/api/switch-model` route handler from `api/routers/models.py`:
a `ValueError` becomes HTTP 404, any other exception HTTP 500 with a
`Failed to switch model:` detail, success HTTP 200 with the ack. -/
def router_switch_model (fs : String → Bool) (recreateOutcome : Except String Unit)
    (st : ModelServiceState) (modelId : String) :
    ModelServiceState × List DockerCall × Nat :=
  let r := switch_model fs recreateOutcome st modelId
  (r.1, r.2.1,
   match r.2.2 with
   | .ok _ => 200
   | .error (.notFound _) => 404
   | .error (.controller _) => 500)

/-! ## Loading status (`api/lib/vllm.py`) -/

/-- The status report `get_loading_status` builds, modeled by its
`status`, `model_loaded` and `current_model` fields. -/
structure LoadingStatus where
  status : String
  modelLoaded : Bool
  currentModel : Option String
deriving DecidableEq, Repr

/-- How `get_loading_status` classifies a response it received: HTTP
200 listing at least one model means ready; any other received
response falls through to the loading report. -/
def classifyModelsResponse (r : Response) : LoadingStatus :=
  if r.statusCode = 200 then
    match r.modelIds with
    | m :: _ => { status := "ready", modelLoaded := true, currentModel := some m }
    | [] => { status := "loading", modelLoaded := false, currentModel := none }
  else
    { status := "loading", modelLoaded := false, currentModel := none }

/-- The method `VLLMService.get_loading_status` as written: one `GET
{base_url}/models` issued directly on the service's shared pooled
`httpx` client with `timeout=3.0`; `call` is that single request's
outcome, and any exception reports `starting`. -/
def get_loading_status (call : Except TransportError Response) : LoadingStatus :=
  match call with
  | .error _ => { status := "starting", modelLoaded := false, currentModel := none }
  | .ok r => classifyModelsResponse r

/-- Modelled from the spec: the variant of `get_loading_status` the
spec describes, in which the poll is issued *through the Resilient
Request Executor* (`request_with_retry`) rather than as a single
direct call.  Used only to compare against `get_loading_status`. -/
def get_loading_status_via_executor (outcomes : Nat → AttemptOutcome)
    (maxRetries : Nat) (retryDelay : ℚ) : LoadingStatus :=
  match (request_with_retry outcomes maxRetries retryDelay).2 with
  | .error _ => { status := "starting", modelLoaded := false, currentModel := none }
  | .ok r => classifyModelsResponse r

/-- A backend run that refuses the first connection attempt and
serves the model list from the second attempt on. -/
def flakyBackend : Nat → AttemptOutcome
  | 0 => .transportFailure (.connectError "connection refused")
  | _ + 1 => .response { statusCode := 200, modelIds := ["org/m"] }

/-- A backend run whose first connection is refused (a caught class)
and whose second attempt dies mid-read with `httpx.ReadError`, an
exception outside the caught `(ConnectError, RemoteProtocolError,
TimeoutException)` tuple. -/
def leakyRun : Nat → AttemptOutcome
  | 0 => .transportFailure (.connectError "connection refused")
  | 1 => .otherException "httpx.ReadError"
  | _ + 2 => .response { statusCode := 200, modelIds := ["org/m"] }

end TalkTuah

namespace TalkTuah

/-! ## Theorems -/

lemma getKey_setKey (l : List (String × DownloadState)) (k : String) (v : DownloadState) :
    getKey (setKey l k v) k = some v := by
  induction l with
  | nil => simp [setKey, getKey]
  | cons p rest ih =>
      obtain ⟨k', v'⟩ := p
      by_cases h : k' = k <;> simp [setKey, getKey, h, ih]

lemma countKey_setKey (l : List (String × DownloadState)) (k : String) (v : DownloadState)
    (h : countKey l k ≤ 1) : countKey (setKey l k v) k = 1 := by
  simp only [countKey] at h ⊢
  induction l with
  | nil => simp [setKey]
  | cons p rest ih =>
      obtain ⟨k', v'⟩ := p
      by_cases hk : k' = k
      · subst hk
        have hrest : List.countP (fun p => p.1 == k') rest = 0 := by
          simp [List.countP_cons, List.countP_eq_zero] at h ⊢
          exact h
        simp [setKey, List.countP_cons, hrest]
      · have hne : (k' == k) = false := by simp [hk]
        simp only [setKey, if_neg hk]
        simp [List.countP_cons, hne] at h ⊢
        exact ih h

/-- C1 (counterexample): `download_model` has no in-flight check, so a
second call for the same model id while the first download is still in
the `downloading` state is not an idempotent no-op.  Starting from the
fresh service and calling `download_model` twice for `"m"` (at times 0
and 1) leaves two spawned background tasks — not exactly one — and the
`DownloadState` entry has been overwritten with a fresh state whose
`started_at` is 1, not the existing state started at 0. -/
theorem download_model_second_call_cex :
    (download_model (download_model ServiceState.init "m" 0).1 "m" 1).1.tasks.length = 2 ∧
    (download_model (download_model ServiceState.init "m" 0).1 "m" 1).1.tasks.length ≠ 1 ∧
    getKey (download_model (download_model ServiceState.init "m" 0).1 "m" 1).1.states "m" =
      some (freshDownloadState "m" 1) ∧
    freshDownloadState "m" 1 ≠ freshDownloadState "m" 0 := by
  refine ⟨by decide, by decide, by decide, by decide⟩

/-- C1 (amended): calling `download_model` a second time for the same
model id while the first download is still in the `downloading` state
is accepted, not rejected: it overwrites the model's `DownloadState`
with a fresh one (progress reset to 0, `started_at` reset to the
second call's time) and spawns a second background task, so two
background tasks for the model exist afterwards; only the
`DownloadState` entry stays unique, because `_download_state` is a
dict keyed by model id.  The second call returns the same ack dict as
the first. -/
theorem download_model_second_call_overwrites (s : ServiceState) (modelId : String)
    (t1 t2 : Nat) (h : countKey s.states modelId ≤ 1) :
    countKey (download_model (download_model s modelId t1).1 modelId t2).1.states modelId = 1 ∧
    getKey (download_model (download_model s modelId t1).1 modelId t2).1.states modelId =
      some (freshDownloadState modelId t2) ∧
    (download_model (download_model s modelId t1).1 modelId t2).1.tasks =
      s.tasks ++ [modelId, modelId] ∧
    (download_model (download_model s modelId t1).1 modelId t2).2 = ("downloading", modelId) := by
  refine ⟨?_, getKey_setKey _ _ _, by simp [download_model], rfl⟩
  exact countKey_setKey _ _ _ (le_of_eq (countKey_setKey _ _ _ h))

theorem download_model_second_call_overwrites_witness :
    countKey ServiceState.init.states "m" ≤ 1 ∧
    (countKey (download_model (download_model ServiceState.init "m" 0).1 "m" 1).1.states "m" = 1 ∧
     getKey (download_model (download_model ServiceState.init "m" 0).1 "m" 1).1.states "m" =
       some (freshDownloadState "m" 1) ∧
     (download_model (download_model ServiceState.init "m" 0).1 "m" 1).1.tasks =
       ServiceState.init.tasks ++ ["m", "m"] ∧
     (download_model (download_model ServiceState.init "m" 0).1 "m" 1).2 = ("downloading", "m")) :=
  ⟨by decide, download_model_second_call_overwrites ServiceState.init "m" 0 1 (by decide)⟩

/-- C2: within one download lifetime of a model id the observable
state sequence — the idle placeholder before the entry exists, the
fresh `downloading` state written by `download_model`, then the
background task's checkpoint states, ending either with the
`complete` write or with the `error` write after `k ≤ 3` checkpoint
updates (every fetcher raise point lies before the final
`complete`/`progress=100` write) — is a chain of legal steps: progress
never decreases and the status only moves
`idle → downloading → complete` or `idle → downloading → error`,
never backward.  `get_progress` is read-only and returns exactly the
stored entry for the model id, so no interleaving of reads can observe
anything outside this chain. -/
theorem download_lifetime_monotone (modelId msg : String) (now k : Nat) (hk : k ≤ 3) :
    List.Chain' validStep (downloadTrace modelId now k none) ∧
    List.Chain' validStep (downloadTrace modelId now k (some msg)) ∧
    (∀ (s : ServiceState) (st : DownloadState),
      getKey s.states modelId = some st → get_progress s (some modelId) = st) := by
  refine ⟨?_, ?_, ?_⟩
  · simp [downloadTrace, traceFrom, lifetimeUpdates, List.chain'_cons, validStep,
      statusStepOk, errorUpdate, freshDownloadState, idlePlaceholder]
  · interval_cases k <;>
      simp [downloadTrace, traceFrom, lifetimeUpdates, List.chain'_cons, validStep,
        statusStepOk, errorUpdate, freshDownloadState, idlePlaceholder]
  · intro s st hst
    simp [get_progress, hst]

lemma nRequests_append (a b : List Ev) : nRequests (a ++ b) = nRequests a + nRequests b :=
  List.countP_append _ _ _

lemma nSleeps_append (a b : List Ev) : nSleeps (a ++ b) = nSleeps a + nSleeps b :=
  List.countP_append _ _ _

lemma totalSleep_append (a b : List Ev) : totalSleep (a ++ b) = totalSleep a + totalSleep b := by
  simp [totalSleep]

lemma openHandles_append (a b : List Ev) : openHandles (a ++ b) = openHandles a + openHandles b := by
  simp [openHandles]

lemma isFailure_eq_true (o : AttemptOutcome) (h : o.isFailure = true) :
    ∃ e, o = .transportFailure e := by
  cases o with
  | response r => simp [AttemptOutcome.isFailure] at h
  | transportFailure e => exact ⟨e, rfl⟩
  | otherException m => simp [AttemptOutcome.isFailure] at h

lemma runRetry_uncaught_step (outcomes : Nat → AttemptOutcome) (δ : ℚ)
    (attempt rem : Nat) (last : Option TransportError) (m : String)
    (hm : outcomes attempt = .otherException m) :
    runRetry outcomes δ attempt (rem + 1) last = (leakBlock δ attempt, .error (.uncaught m)) := by
  by_cases h0 : attempt = 0
  · subst h0
    simp [runRetry, hm, leakBlock]
  · simp [runRetry, hm, h0, leakBlock]

lemma runRetry_success_step (outcomes : Nat → AttemptOutcome) (δ : ℚ)
    (attempt rem : Nat) (last : Option TransportError) (r : Response)
    (hr : outcomes attempt = .response r) :
    runRetry outcomes δ attempt (rem + 1) last = (attemptBlock δ attempt, .ok r) := by
  by_cases h0 : attempt = 0
  · subst h0
    simp [runRetry, hr, attemptBlock]
  · simp [runRetry, hr, h0, attemptBlock]

lemma runRetry_last_failure_step (outcomes : Nat → AttemptOutcome) (δ : ℚ)
    (attempt : Nat) (last : Option TransportError) (e : TransportError)
    (he : outcomes attempt = .transportFailure e) :
    runRetry outcomes δ attempt 1 last = (attemptBlock δ attempt, .error (.transport e)) := by
  by_cases h0 : attempt = 0
  · subst h0
    simp [runRetry, he, attemptBlock]
  · simp [runRetry, he, h0, attemptBlock]

lemma runRetry_failure_step (outcomes : Nat → AttemptOutcome) (δ : ℚ)
    (attempt rem : Nat) (last : Option TransportError) (e : TransportError)
    (he : outcomes attempt = .transportFailure e) (hrem : rem ≠ 0) :
    runRetry outcomes δ attempt (rem + 1) last =
      (attemptBlock δ attempt ++ (runRetry outcomes δ (attempt + 1) rem (some e)).1,
       (runRetry outcomes δ (attempt + 1) rem (some e)).2) := by
  by_cases h0 : attempt = 0
  · subst h0
    simp [runRetry, he, hrem, attemptBlock]
  · simp [runRetry, he, h0, hrem, attemptBlock]

lemma nRequests_attemptBlock (δ : ℚ) (i : Nat) : nRequests (attemptBlock δ i) = 1 := by
  by_cases h : i = 0 <;> simp [attemptBlock, h, nRequests, List.countP_cons]

lemma runRetry_success (outcomes : Nat → AttemptOutcome) (δ : ℚ) :
    ∀ (d remaining attempt : Nat) (last : Option TransportError) (r : Response),
      d < remaining →
      (∀ j, j < d → (outcomes (attempt + j)).isFailure = true) →
      outcomes (attempt + d) = .response r →
      (runRetry outcomes δ attempt remaining last).2 = .ok r ∧
      nRequests (runRetry outcomes δ attempt remaining last).1 = d + 1 := by
  intro d
  induction d with
  | zero =>
      intro remaining attempt last r hd _ hout
      obtain ⟨rem, rfl⟩ : ∃ rem, remaining = rem + 1 :=
        ⟨remaining - 1, by omega⟩
      rw [Nat.add_zero] at hout
      rw [runRetry_success_step outcomes δ attempt rem last r hout]
      exact ⟨rfl, nRequests_attemptBlock δ attempt⟩
  | succ d ih =>
      intro remaining attempt last r hd hfail hout
      obtain ⟨rem, rfl⟩ : ∃ rem, remaining = rem + 1 :=
        ⟨remaining - 1, by omega⟩
      obtain ⟨e, he⟩ := isFailure_eq_true _ (by simpa using hfail 0 (by omega))
      have hrem : rem ≠ 0 := by omega
      have hrec := ih rem (attempt + 1) (some e) r (by omega)
        (fun j hj => by
          have := hfail (j + 1) (by omega)
          simpa [Nat.add_assoc, Nat.add_comm 1 j] using this)
        (by simpa [Nat.add_assoc, Nat.add_comm 1 d] using hout)
      rw [runRetry_failure_step outcomes δ attempt rem last e he hrem]
      refine ⟨hrec.1, ?_⟩
      rw [nRequests_append, nRequests_attemptBlock, hrec.2]
      omega

lemma runRetry_exhaust (outcomes : Nat → AttemptOutcome) (δ : ℚ) :
    ∀ (remaining attempt : Nat) (last : Option TransportError) (e : TransportError),
      1 ≤ remaining →
      (∀ j, j < remaining → (outcomes (attempt + j)).isFailure = true) →
      outcomes (attempt + (remaining - 1)) = .transportFailure e →
      (runRetry outcomes δ attempt remaining last).2 = .error (.transport e) := by
  intro remaining
  induction remaining with
  | zero => intro _ _ _ h; omega
  | succ rem ih =>
      intro attempt last e _ hfail hout
      by_cases hrem : rem = 0
      · subst hrem
        simp only [Nat.add_sub_cancel, Nat.add_zero] at hout
        rw [runRetry_last_failure_step outcomes δ attempt last e hout]
      · obtain ⟨e0, he0⟩ := isFailure_eq_true _ (by simpa using hfail 0 (by omega))
        have hrec := ih (attempt + 1) (some e0) e (by omega)
          (fun j hj => by
            have := hfail (j + 1) (by omega)
            simpa [Nat.add_assoc, Nat.add_comm 1 j] using this)
          (by
            have harith : attempt + 1 + (rem - 1) = attempt + (rem + 1 - 1) := by omega
            rw [harith]
            exact hout)
        rw [runRetry_failure_step outcomes δ attempt rem last e0 he0 hrem]
        exact hrec

/-- C3: the executor treats any received response as terminal.  If the
first `i` attempts all hit transport-level failures (the caught
connect / remote-protocol / timeout classes) and attempt `i` receives
a response `r` — whatever its status code, `r` is unconstrained — then
`request_with_retry` returns `r` as-is after exactly `i + 1` request
attempts, retrying nothing further; and if all `max_retries` attempts
hit transport failures, the last transport error is re-raised. -/
theorem request_with_retry_response_terminal (outcomes : Nat → AttemptOutcome)
    (maxRetries : Nat) (δ : ℚ) :
    (∀ i r, i < maxRetries →
      (∀ j, j < i → (outcomes j).isFailure = true) →
      outcomes i = .response r →
      (request_with_retry outcomes maxRetries δ).2 = .ok r ∧
      nRequests (request_with_retry outcomes maxRetries δ).1 = i + 1) ∧
    (∀ e, 1 ≤ maxRetries →
      (∀ j, j < maxRetries → (outcomes j).isFailure = true) →
      outcomes (maxRetries - 1) = .transportFailure e →
      (request_with_retry outcomes maxRetries δ).2 = .error (.transport e)) := by
  constructor
  · intro i r hi hfail hout
    exact runRetry_success outcomes δ i maxRetries 0 none r hi
      (fun j hj => by simpa using hfail j hj) (by simpa using hout)
  · intro e h1 hfail hout
    exact runRetry_exhaust outcomes δ maxRetries 0 none e h1
      (fun j hj => by simpa using hfail j hj) (by simpa using hout)

theorem request_with_retry_response_terminal_witness :
    ((request_with_retry (fun _ => .response ⟨502, []⟩) 3 4).2 = .ok ⟨502, []⟩ ∧
     nRequests (request_with_retry (fun _ => .response ⟨502, []⟩) 3 4).1 = 0 + 1) ∧
    (request_with_retry (fun _ => .transportFailure (.timeoutException "t")) 2 4).2 =
      .error (.transport (.timeoutException "t")) :=
  ⟨(request_with_retry_response_terminal (fun _ => .response ⟨502, []⟩) 3 4).1 0 ⟨502, []⟩
      (by omega) (fun j hj => absurd hj (Nat.not_lt_zero j)) rfl,
   (request_with_retry_response_terminal
      (fun _ => .transportFailure (.timeoutException "t")) 2 4).2
      (.timeoutException "t") (by omega) (fun j _ => rfl) rfl⟩

lemma runRetry_shape (outcomes : Nat → AttemptOutcome) (δ : ℚ) :
    ∀ (remaining attempt : Nat) (last : Option TransportError),
      1 ≤ remaining →
      ∃ n, 1 ≤ n ∧ n ≤ remaining ∧
        ((runRetry outcomes δ attempt remaining last).1 = canonicalTrace δ n attempt ∨
         ((runRetry outcomes δ attempt remaining last).1 =
            canonicalTrace δ (n - 1) attempt ++ leakBlock δ (attempt + (n - 1)) ∧
          ∃ m, outcomes (attempt + (n - 1)) = .otherException m)) := by
  intro remaining
  induction remaining with
  | zero => intro _ _ h; omega
  | succ rem ih =>
      intro attempt last _
      cases hout : outcomes attempt with
      | response r =>
          refine ⟨1, le_refl 1, by omega, Or.inl ?_⟩
          rw [runRetry_success_step outcomes δ attempt rem last r hout]
          simp [canonicalTrace]
      | otherException m =>
          refine ⟨1, le_refl 1, by omega, Or.inr ⟨?_, m, ?_⟩⟩
          · rw [runRetry_uncaught_step outcomes δ attempt rem last m hout]
            simp [canonicalTrace]
          · simpa using hout
      | transportFailure e =>
          by_cases hrem : rem = 0
          · subst hrem
            refine ⟨1, le_refl 1, by omega, Or.inl ?_⟩
            rw [runRetry_last_failure_step outcomes δ attempt last e hout]
            simp [canonicalTrace]
          · obtain ⟨n, hn1, hn2, hshape⟩ := ih (attempt + 1) (some e) (by omega)
            refine ⟨n + 1, by omega, by omega, ?_⟩
            rw [runRetry_failure_step outcomes δ attempt rem last e hout hrem]
            rcases hshape with hcan | ⟨hcan, m, hm⟩
            · exact Or.inl (by simp [canonicalTrace, hcan])
            · obtain ⟨n', rfl⟩ : ∃ n', n = n' + 1 := ⟨n - 1, by omega⟩
              refine Or.inr ⟨?_, m, ?_⟩
              · rw [hcan]
                have harith : attempt + 1 + (n' + 1 - 1) = attempt + (n' + 1 + 1 - 1) := by
                  omega
                rw [harith]
                simp [canonicalTrace]
              · have harith : attempt + 1 + (n' + 1 - 1) = attempt + (n' + 1 + 1 - 1) := by
                  omega
                rw [← harith]
                exact hm

lemma nSleeps_attemptBlock (δ : ℚ) (i : Nat) :
    nSleeps (attemptBlock δ i) = if i = 0 then 0 else 1 := by
  by_cases h : i = 0 <;> simp [attemptBlock, h, nSleeps, List.countP_cons]

lemma totalSleep_attemptBlock (δ : ℚ) (i : Nat) :
    totalSleep (attemptBlock δ i) = if i = 0 then 0 else δ := by
  by_cases h : i = 0 <;> simp [attemptBlock, h, totalSleep]

lemma openHandles_attemptBlock (δ : ℚ) (i : Nat) :
    openHandles (attemptBlock δ i) = 0 := by
  by_cases h : i = 0 <;> simp [attemptBlock, h, openHandles, handleDelta]

lemma nRequests_leakBlock (δ : ℚ) (i : Nat) : nRequests (leakBlock δ i) = 1 := by
  by_cases h : i = 0 <;> simp [leakBlock, h, nRequests, List.countP_cons]

lemma nSleeps_leakBlock (δ : ℚ) (i : Nat) :
    nSleeps (leakBlock δ i) = if i = 0 then 0 else 1 := by
  by_cases h : i = 0 <;> simp [leakBlock, h, nSleeps, List.countP_cons]

lemma totalSleep_leakBlock (δ : ℚ) (i : Nat) :
    totalSleep (leakBlock δ i) = if i = 0 then 0 else δ := by
  by_cases h : i = 0 <;> simp [leakBlock, h, totalSleep]

lemma openHandles_leakBlock (δ : ℚ) (i : Nat) :
    openHandles (leakBlock δ i) = if i = 0 then 0 else 1 := by
  by_cases h : i = 0 <;> simp [leakBlock, h, openHandles, handleDelta]

lemma canonicalTrace_stats (δ : ℚ) :
    ∀ (n attempt : Nat),
      nRequests (canonicalTrace δ n attempt) = n ∧
      nSleeps (canonicalTrace δ n attempt) = (if attempt = 0 then n - 1 else n) ∧
      totalSleep (canonicalTrace δ n attempt) =
        ((if attempt = 0 then n - 1 else n : Nat) : ℚ) * δ := by
  intro n
  induction n with
  | zero =>
      intro attempt
      simp [canonicalTrace, nRequests, nSleeps, totalSleep]
  | succ n ih =>
      intro attempt
      obtain ⟨ihr, ihs, iht⟩ := ih (attempt + 1)
      rw [if_neg (by omega : ¬ attempt + 1 = 0)] at ihs iht
      refine ⟨?_, ?_, ?_⟩
      · simp only [canonicalTrace, nRequests_append, nRequests_attemptBlock, ihr]
        omega
      · simp only [canonicalTrace, nSleeps_append, nSleeps_attemptBlock, ihs]
        by_cases h0 : attempt = 0
        · simp [h0]
        · simp [h0]
          omega
      · simp only [canonicalTrace, totalSleep_append, totalSleep_attemptBlock, iht]
        by_cases h0 : attempt = 0 <;> simp [h0]
        ring

/-- C4: the executor makes at most `max_retries` attempts; the number
of sleeps is the number of attempts minus one (no sleep before attempt
1, one `retry_delay` sleep before each attempt from 2 on), so the
total sleeping time is exactly `(attempts_made - 1) * retry_delay`;
and whenever at least one attempt is allowed, the trace starts with
the pooled-client first attempt, not with a sleep. -/
theorem request_with_retry_sleep_budget (outcomes : Nat → AttemptOutcome)
    (maxRetries : Nat) (δ : ℚ) :
    nRequests (request_with_retry outcomes maxRetries δ).1 ≤ maxRetries ∧
    nSleeps (request_with_retry outcomes maxRetries δ).1 =
      nRequests (request_with_retry outcomes maxRetries δ).1 - 1 ∧
    totalSleep (request_with_retry outcomes maxRetries δ).1 =
      ((nRequests (request_with_retry outcomes maxRetries δ).1 - 1 : ℕ) : ℚ) * δ ∧
    (1 ≤ maxRetries →
      1 ≤ nRequests (request_with_retry outcomes maxRetries δ).1 ∧
      (request_with_retry outcomes maxRetries δ).1.head? = some Ev.usePooled) := by
  by_cases hmr : 1 ≤ maxRetries
  · obtain ⟨n, hn1, hn2, hshape⟩ := runRetry_shape outcomes δ maxRetries 0 none hmr
    rcases hshape with hcan | ⟨hcan, m, hm⟩
    · obtain ⟨hr, hs, ht⟩ := canonicalTrace_stats δ n 0
      rw [if_pos rfl] at hs ht
      simp only [request_with_retry] at *
      rw [hcan, hr, hs, ht]
      refine ⟨hn2, rfl, rfl, fun _ => ⟨hn1, ?_⟩⟩
      obtain ⟨n', rfl⟩ : ∃ n', n = n' + 1 := ⟨n - 1, by omega⟩
      simp [canonicalTrace, attemptBlock]
    · obtain ⟨hr, hs, ht⟩ := canonicalTrace_stats δ (n - 1) 0
      rw [if_pos rfl] at hs ht
      simp only [request_with_retry] at *
      simp only [Nat.zero_add] at hcan
      rw [hcan, nRequests_append, nSleeps_append, totalSleep_append, hr, hs, ht,
        nRequests_leakBlock, nSleeps_leakBlock, totalSleep_leakBlock]
      refine ⟨by omega, ?_, ?_, fun _ => ⟨by omega, ?_⟩⟩
      · by_cases h1 : n - 1 = 0
        · simp [h1]
        · simp only [if_neg h1]
          omega
      · by_cases h1 : n - 1 = 0
        · simp [h1]
        · simp only [if_neg h1]
          obtain ⟨n'', rfl⟩ : ∃ n'', n = n'' + 2 := ⟨n - 2, by omega⟩
          have e1 : n'' + 2 - 1 - 1 = n'' := by omega
          have e2 : n'' + 2 - 1 + 1 - 1 = n'' + 1 := by omega
          rw [e1, e2]
          push_cast
          ring
      · by_cases h1 : n - 1 = 0
        · simp [h1, canonicalTrace, leakBlock]
        · obtain ⟨k, hk⟩ : ∃ k, n - 1 = k + 1 := ⟨n - 2, by omega⟩
          rw [hk]
          simp [canonicalTrace, attemptBlock]
  · have h0 : maxRetries = 0 := by omega
    subst h0
    simp [request_with_retry, runRetry, nRequests, nSleeps, totalSleep]

theorem request_with_retry_sleep_budget_witness :
    nRequests (request_with_retry (fun _ => .transportFailure (.connectError "r")) 3 4).1 ≤ 3 ∧
    nSleeps (request_with_retry (fun _ => .transportFailure (.connectError "r")) 3 4).1 =
      nRequests (request_with_retry (fun _ => .transportFailure (.connectError "r")) 3 4).1 - 1 ∧
    totalSleep (request_with_retry (fun _ => .transportFailure (.connectError "r")) 3 4).1 =
      ((nRequests (request_with_retry (fun _ => .transportFailure (.connectError "r")) 3 4).1
        - 1 : ℕ) : ℚ) * 4 ∧
    (1 ≤ 3 →
      1 ≤ nRequests (request_with_retry (fun _ => .transportFailure (.connectError "r")) 3 4).1 ∧
      (request_with_retry (fun _ => .transportFailure (.connectError "r")) 3 4).1.head? =
        some Ev.usePooled) :=
  request_with_retry_sleep_budget (fun _ => .transportFailure (.connectError "r")) 3 4

lemma openHandles_take_append (a b : List Ev)
    (ha0 : openHandles a = 0)
    (ha : ∀ m, 0 ≤ openHandles (a.take m) ∧ openHandles (a.take m) ≤ 1)
    (hb : ∀ m, 0 ≤ openHandles (b.take m) ∧ openHandles (b.take m) ≤ 1) :
    ∀ m, 0 ≤ openHandles ((a ++ b).take m) ∧ openHandles ((a ++ b).take m) ≤ 1 := by
  intro m
  rw [List.take_append_eq_append_take, openHandles_append]
  by_cases hm : m ≤ a.length
  · have h2 : m - a.length = 0 := by omega
    rw [h2]
    simpa [openHandles] using ha m
  · have h1 : a.take m = a := List.take_of_length_le (by omega)
    rw [h1, ha0]
    simpa using hb (m - a.length)

lemma attemptBlock_take_handles (δ : ℚ) (i : Nat) :
    ∀ m, 0 ≤ openHandles ((attemptBlock δ i).take m) ∧
         openHandles ((attemptBlock δ i).take m) ≤ 1 := by
  intro m
  by_cases h : i = 0
  · subst h
    rcases m with _ | _ | m <;> simp [attemptBlock, openHandles, handleDelta]
  · rcases m with _ | _ | _ | _ | m <;> simp [attemptBlock, h, openHandles, handleDelta]

lemma canonicalTrace_handles (δ : ℚ) :
    ∀ (n attempt : Nat),
      openHandles (canonicalTrace δ n attempt) = 0 ∧
      ∀ m, 0 ≤ openHandles ((canonicalTrace δ n attempt).take m) ∧
           openHandles ((canonicalTrace δ n attempt).take m) ≤ 1 := by
  intro n
  induction n with
  | zero =>
      intro attempt
      constructor
      · simp [canonicalTrace, openHandles]
      · intro m
        simp [canonicalTrace, openHandles]
  | succ n ih =>
      intro attempt
      obtain ⟨ih0, ihtake⟩ := ih (attempt + 1)
      constructor
      · simp only [canonicalTrace, openHandles_append, openHandles_attemptBlock, ih0]
        ring
      · simp only [canonicalTrace]
        exact openHandles_take_append _ _ (openHandles_attemptBlock δ attempt)
          (attemptBlock_take_handles δ attempt) ihtake

/-- C5 (counterexample): a fresh handle opened by an attempt ≥ 2 can
leak.  The loop has no `finally`; it closes the fresh client only on
success and in the `except` for the three caught transport classes.
Against a run whose first connection is refused and whose second
attempt raises `httpx.ReadError` — an exception outside that tuple —
the exception propagates out of attempt 2 with the fresh handle opened
by that attempt still open: the trace opens `openFresh 1` and never
emits `closeFresh 1`, and one handle remains open at exit, refuting
the claim that the fresh handle is closed before the attempt's result
is returned under both success and failure. -/
theorem request_with_retry_uncaught_leak_cex :
    (request_with_retry leakyRun 10 4).1 =
      [Ev.usePooled, Ev.request 0, Ev.sleep 4, Ev.openFresh 1, Ev.request 1] ∧
    (request_with_retry leakyRun 10 4).2 = .error (.uncaught "httpx.ReadError") ∧
    nRequests (request_with_retry leakyRun 10 4).1 = 2 ∧
    ((request_with_retry leakyRun 10 4).1.countP (fun e => e == Ev.openFresh 1)) = 1 ∧
    ((request_with_retry leakyRun 10 4).1.countP (fun e => e == Ev.closeFresh 1)) = 0 ∧
    openHandles (request_with_retry leakyRun 10 4).1 = 1 ∧
    ¬ openHandles (request_with_retry leakyRun 10 4).1 = 0 := by
  refine ⟨rfl, rfl, rfl, rfl, rfl, rfl, by decide⟩

/-- C5 (amended): the close of the fresh handle is guaranteed only on
the paths the loop body handles.  For every run in which each attempt
yields a response or one of the three caught transport classes, the
trace is exactly the concatenation of per-attempt blocks in which
every attempt `i ≥ 1` opens its fresh handle and closes it before its
own block ends — hence before the attempt's result is returned or the
next attempt begins; at most one fresh handle is ever open and none
remains open at return.  An exception outside the caught classes (e.g.
`httpx.ReadError`) instead propagates from an attempt ≥ 2 with that
attempt's fresh handle left open, because the loop has no `finally`. -/
theorem request_with_retry_fresh_handles_closed_when_caught
    (outcomes : Nat → AttemptOutcome) (maxRetries : Nat) (δ : ℚ)
    (hmr : 1 ≤ maxRetries)
    (hhandled : ∀ j, j < maxRetries → (outcomes j).isHandled = true) :
    openHandles (request_with_retry outcomes maxRetries δ).1 = 0 ∧
    (∀ m, 0 ≤ openHandles ((request_with_retry outcomes maxRetries δ).1.take m) ∧
          openHandles ((request_with_retry outcomes maxRetries δ).1.take m) ≤ 1) ∧
    (∃ n, 1 ≤ n ∧ n ≤ maxRetries ∧
      (request_with_retry outcomes maxRetries δ).1 = canonicalTrace δ n 0) := by
  obtain ⟨n, hn1, hn2, hshape⟩ := runRetry_shape outcomes δ maxRetries 0 none hmr
  rcases hshape with hcan | ⟨hcan, m, hm⟩
  · obtain ⟨h0, htake⟩ := canonicalTrace_handles δ n 0
    simp only [request_with_retry] at *
    rw [hcan]
    exact ⟨h0, htake, n, hn1, hn2, rfl⟩
  · exfalso
    have hh := hhandled (0 + (n - 1)) (by omega)
    rw [hm] at hh
    simp [AttemptOutcome.isHandled] at hh

theorem request_with_retry_fresh_handles_closed_when_caught_witness :
    (1 ≤ 3) ∧
    (∀ j, j < 3 →
      ((fun _ => AttemptOutcome.transportFailure (.connectError "r")) j).isHandled = true) ∧
    (openHandles (request_with_retry (fun _ => .transportFailure (.connectError "r")) 3 4).1 = 0 ∧
     (∀ m, 0 ≤ openHandles
              ((request_with_retry (fun _ => .transportFailure (.connectError "r")) 3 4).1.take m) ∧
           openHandles
              ((request_with_retry (fun _ => .transportFailure (.connectError "r")) 3 4).1.take m)
             ≤ 1) ∧
     (∃ n, 1 ≤ n ∧ n ≤ 3 ∧
       (request_with_retry (fun _ => .transportFailure (.connectError "r")) 3 4).1 =
         canonicalTrace 4 n 0)) :=
  ⟨by omega, fun _ _ => rfl,
   request_with_retry_fresh_handles_closed_when_caught
     (fun _ => .transportFailure (.connectError "r")) 3 4 (by omega) (fun _ _ => rfl)⟩

lemma relayBody_forwards (frames : List String) (tail : List String) (failMsg : Option String)
    (hvalid : ∀ l ∈ frames, validDataFrame l) :
    relayBody (frames ++ tail) failMsg =
      (frames.map (fun l => SEv.yield (l ++ "\n\n"))) ++ relayBody tail failMsg := by
  induction frames with
  | nil => simp
  | cons l rest ih =>
      obtain ⟨h1, h2, h3⟩ := hvalid l (by simp)
      simp only [List.cons_append, relayBody, if_neg h1, if_pos h2, if_neg h3, List.map_cons]
      exact congrArg (fun t => SEv.yield (l ++ "\n\n") :: t)
        (ih (fun x hx => hvalid x (by simp [hx])))

/-- C6: on an upstream stream of `N` valid data frames followed by the
`data: [DONE]` sentinel, the relay emits exactly the `N` application
frames in arrival order (each the original line terminated by a blank
line), then the terminal frame, and closes the upstream response
exactly once; the break after the sentinel means a subsequent read
failure (`failMsg` arbitrary) is never even reached. -/
theorem stream_relay_in_order (frames : List String) (failMsg : Option String)
    (hvalid : ∀ l ∈ frames, validDataFrame l) :
    stream_chat_response ⟨frames ++ ["data: [DONE]"], failMsg⟩ =
      (frames.map (fun l => SEv.yield (l ++ "\n\n"))) ++
        [SEv.yield "data: [DONE]\n\n", SEv.closeUpstream] ∧
    nCloses (stream_chat_response ⟨frames ++ ["data: [DONE]"], failMsg⟩) = 1 := by
  have hdone : relayBody ["data: [DONE]"] failMsg = [SEv.yield "data: [DONE]\n\n"] := by
    cases failMsg <;> rfl
  have hbody := relayBody_forwards frames ["data: [DONE]"] failMsg hvalid
  rw [hdone] at hbody
  constructor
  · simp [stream_chat_response, hbody]
  · simp [stream_chat_response, hbody, nCloses, List.countP_append, List.countP_cons,
      List.countP_map, Function.comp]

theorem stream_relay_in_order_witness :
    stream_chat_response ⟨["data: a", "data: b"] ++ ["data: [DONE]"], none⟩ =
      ((["data: a", "data: b"].map (fun l => SEv.yield (l ++ "\n\n"))) ++
        [SEv.yield "data: [DONE]\n\n", SEv.closeUpstream]) ∧
    nCloses (stream_chat_response ⟨["data: a", "data: b"] ++ ["data: [DONE]"], none⟩) = 1 :=
  stream_relay_in_order ["data: a", "data: b"] none
    (by
      intro l hl
      simp at hl
      rcases hl with rfl | rfl
      · exact ⟨by decide, by decide, by decide⟩
      · exact ⟨by decide, by decide, by decide⟩)

/-- C7: on an upstream stream whose read raises after `K` valid data
frames, the relay emits those `K` application frames in order, then
exactly one synthetic terminal error frame carrying the error payload,
and still closes the upstream response exactly once — the close runs
in the `finally` on this failure path just as on the success path. -/
theorem stream_relay_error_path (frames : List String) (msg : String)
    (hvalid : ∀ l ∈ frames, validDataFrame l) :
    stream_chat_response ⟨frames, some msg⟩ =
      (frames.map (fun l => SEv.yield (l ++ "\n\n"))) ++
        [SEv.yield ("data: " ++ errorEventJson msg ++ "\n\n"), SEv.closeUpstream] ∧
    nCloses (stream_chat_response ⟨frames, some msg⟩) = 1 := by
  have hbody := relayBody_forwards frames [] (some msg) hvalid
  simp only [List.append_nil] at hbody
  have herr : relayBody [] (some msg) = [SEv.yield ("data: " ++ errorEventJson msg ++ "\n\n")] :=
    rfl
  rw [herr] at hbody
  constructor
  · simp [stream_chat_response, hbody]
  · simp [stream_chat_response, hbody, nCloses, List.countP_append, List.countP_cons,
      List.countP_map, Function.comp]

theorem stream_relay_error_path_witness :
    stream_chat_response ⟨["data: a"], some "boom"⟩ =
      ((["data: a"].map (fun l => SEv.yield (l ++ "\n\n"))) ++
        [SEv.yield ("data: " ++ errorEventJson "boom" ++ "\n\n"), SEv.closeUpstream]) ∧
    nCloses (stream_chat_response ⟨["data: a"], some "boom"⟩) = 1 :=
  stream_relay_error_path ["data: a"] "boom"
    (by
      intro l hl
      simp at hl
      subst hl
      exact ⟨by decide, by decide, by decide⟩)

/-- C8: `switch_model` raises its not-found `ValueError` exactly when
the artifact store does not confirm the model's cache directory on
disk; in that case it performs no state change and issues zero calls
to the container controller.  When the artifact exists and the
controller's recreate succeeds, the call issues the recreate followed
by the fire-and-forget delayed restart and immediately returns the
`"switching"` ack (with its fixed 60-second estimate) rather than
waiting for the backend to finish loading. -/
theorem switch_model_requires_artifact (fs : String → Bool) (rec : Except String Unit)
    (st : ModelServiceState) (modelId : String) :
    (verify_model_exists fs modelId = false →
      switch_model fs rec st modelId =
        (st, [],
         .error (.notFound ("Model not found: " ++ modelId ++ ". Please download it first.")))) ∧
    ((∃ m, (switch_model fs rec st modelId).2.2 = .error (.notFound m)) ↔
      verify_model_exists fs modelId = false) ∧
    (verify_model_exists fs modelId = true → rec = .ok () →
      (switch_model fs rec st modelId).2.2 =
        .ok { status := "switching", modelId := modelId, estimatedTimeSeconds := 60 } ∧
      (switch_model fs rec st modelId).2.1 =
        [DockerCall.recreateVllm, DockerCall.restartApiDelayed 1]) := by
  refine ⟨?_, ?_, ?_⟩
  · intro h
    simp [switch_model, h]
  · constructor
    · rintro ⟨m, hm⟩
      by_cases h : verify_model_exists fs modelId
      · exfalso
        cases rec with
        | ok u => simp [switch_model, h] at hm
        | error e => simp [switch_model, h] at hm
      · simpa using h
    · intro h
      exact ⟨"Model not found: " ++ modelId ++ ". Please download it first.",
        by simp [switch_model, h]⟩
  · intro h hrec
    subst hrec
    simp [switch_model, h]

theorem switch_model_requires_artifact_witness :
    switch_model (fun _ => false) (.ok ()) ⟨true, none, none, 0⟩ "org/m" =
      (⟨true, none, none, 0⟩, [],
       .error (.notFound ("Model not found: " ++ "org/m" ++ ". Please download it first."))) ∧
    ((switch_model (fun _ => true) (.ok ()) ⟨true, none, none, 0⟩ "org/m").2.2 =
      .ok { status := "switching", modelId := "org/m", estimatedTimeSeconds := 60 } ∧
     (switch_model (fun _ => true) (.ok ()) ⟨true, none, none, 0⟩ "org/m").2.1 =
      [DockerCall.recreateVllm, DockerCall.restartApiDelayed 1]) :=
  ⟨(switch_model_requires_artifact (fun _ => false) (.ok ())
      ⟨true, none, none, 0⟩ "org/m").1 rfl,
   (switch_model_requires_artifact (fun _ => true) (.ok ())
      ⟨true, none, none, 0⟩ "org/m").2.2 rfl rfl⟩

/-- C9 (counterexample): `get_loading_status` does not poll through the
Resilient Request Executor; it issues a single direct request on the
shared pooled client.  Against a backend that refuses the first
connection attempt and serves the model list from the second attempt
on, the code reports `starting` (its single call sees only the refusal)
while the executor-based variant the claim describes — with the
executor's own defaults `max_retries = 10`, `retry_delay = 4.0` — would
retry and report `ready`; the two reports differ. -/
theorem get_loading_status_not_via_executor_cex :
    get_loading_status (.error (.connectError "connection refused")) =
      { status := "starting", modelLoaded := false, currentModel := none } ∧
    get_loading_status_via_executor flakyBackend 10 4 =
      { status := "ready", modelLoaded := true, currentModel := some "org/m" } ∧
    ({ status := "starting", modelLoaded := false, currentModel := none } : LoadingStatus) ≠
      { status := "ready", modelLoaded := true, currentModel := some "org/m" } := by
  exact ⟨rfl, rfl, by decide⟩

/-- C9 (amended): `get_loading_status` polls the backend's
model-listing endpoint with a single direct 3-second-timeout request on
the shared pooled client (not through the Resilient Request Executor)
and reports exactly one of three states: `ready` when a 200 response
lists a model, `loading` when the backend responds but the response is
not a 200 listing at least one model, and `starting` when the request
raises (backend unreachable). -/
theorem get_loading_status_three_states (call : Except TransportError Response) :
    (∀ e, call = .error e →
      get_loading_status call = ⟨"starting", false, none⟩) ∧
    (∀ r m rest, call = .ok r → r.statusCode = 200 → r.modelIds = m :: rest →
      get_loading_status call = ⟨"ready", true, some m⟩) ∧
    (∀ r, call = .ok r → (r.statusCode ≠ 200 ∨ r.modelIds = []) →
      get_loading_status call = ⟨"loading", false, none⟩) := by
  refine ⟨?_, ?_, ?_⟩
  · intro e h
    subst h
    rfl
  · intro r m rest h h200 hm
    subst h
    simp [get_loading_status, classifyModelsResponse, h200, hm]
  · intro r h hcase
    subst h
    rcases hcase with h200 | hm
    · simp [get_loading_status, classifyModelsResponse, h200]
    · by_cases h200 : r.statusCode = 200 <;>
        simp [get_loading_status, classifyModelsResponse, h200, hm]

theorem get_loading_status_three_states_witness :
    get_loading_status (.error (.timeoutException "t")) = ⟨"starting", false, none⟩ ∧
    get_loading_status (.ok ⟨200, ["org/m"]⟩) = ⟨"ready", true, some "org/m"⟩ ∧
    get_loading_status (.ok ⟨200, []⟩) = ⟨"loading", false, none⟩ :=
  ⟨(get_loading_status_three_states (.error (.timeoutException "t"))).1
      (.timeoutException "t") rfl,
   (get_loading_status_three_states (.ok ⟨200, ["org/m"]⟩)).2.1
      ⟨200, ["org/m"]⟩ "org/m" [] rfl rfl rfl,
   (get_loading_status_three_states (.ok ⟨200, []⟩)).2.2
      ⟨200, []⟩ rfl (Or.inr rfl)⟩

/-- C10: `switch_model` is not atomic when the container controller
fails.  If the artifact exists and `recreate_vllm_container` raises,
the exception propagates (`.error (.controller e)`, mapped by the route
handler to HTTP 500), but the `DEFAULT_MODEL` write to `.env` and the
model-list cache invalidation — both performed before the controller
call — are already applied and are not rolled back; only the recreate
call was issued, the delayed restart never being scheduled. -/
theorem switch_model_not_atomic_on_controller_failure (fs : String → Bool)
    (st : ModelServiceState) (modelId e : String)
    (hex : verify_model_exists fs modelId = true) (henv : st.envFileExists = true) :
    (switch_model fs (.error e) st modelId).2.2 = .error (.controller e) ∧
    (switch_model fs (.error e) st modelId).1.envDefaultModel = some modelId ∧
    (switch_model fs (.error e) st modelId).1.modelCache = none ∧
    (switch_model fs (.error e) st modelId).2.1 = [DockerCall.recreateVllm] ∧
    (router_switch_model fs (.error e) st modelId).2.2 = 500 := by
  simp [switch_model, router_switch_model, update_env_file, invalidate_cache, hex, henv]

theorem switch_model_not_atomic_on_controller_failure_witness :
    verify_model_exists (fun _ => true) "org/m" = true ∧
    (⟨true, some "org/old", some ["org/old"], 7⟩ : ModelServiceState).envFileExists = true ∧
    ((switch_model (fun _ => true) (.error "compose failed")
        ⟨true, some "org/old", some ["org/old"], 7⟩ "org/m").2.2 =
      .error (.controller "compose failed") ∧
     (switch_model (fun _ => true) (.error "compose failed")
        ⟨true, some "org/old", some ["org/old"], 7⟩ "org/m").1.envDefaultModel = some "org/m" ∧
     (switch_model (fun _ => true) (.error "compose failed")
        ⟨true, some "org/old", some ["org/old"], 7⟩ "org/m").1.modelCache = none ∧
     (switch_model (fun _ => true) (.error "compose failed")
        ⟨true, some "org/old", some ["org/old"], 7⟩ "org/m").2.1 = [DockerCall.recreateVllm] ∧
     (router_switch_model (fun _ => true) (.error "compose failed")
        ⟨true, some "org/old", some ["org/old"], 7⟩ "org/m").2.2 = 500) :=
  ⟨rfl, rfl,
   switch_model_not_atomic_on_controller_failure (fun _ => true)
     ⟨true, some "org/old", some ["org/old"], 7⟩ "org/m" "compose failed" rfl rfl⟩

theorem download_lifetime_monotone_witness :
    (2 ≤ 3) ∧
    (List.Chain' validStep (downloadTrace "m" 5 2 none) ∧
     List.Chain' validStep (downloadTrace "m" 5 2 (some "boom")) ∧
     (∀ (s : ServiceState) (st : DownloadState),
       getKey s.states "m" = some st → get_progress s (some "m") = st)) :=
  ⟨by decide, download_lifetime_monotone "m" "boom" 5 2 (by decide)⟩

end TalkTuah
